import Mathlib

/-!
Verification development for the `child_happy_patter_release` backend.

The Python sources under `backend/` are shallowly embedded below:
pure functions become Lean functions over `Nat`/`Int`/`ℚ`/`String`/`List`;
Python `dict` registries become association lists keyed by `String`;
wall-clock time and freshly minted ids become explicit parameters; calls
to external services (the LLM adapters, the safety agent whose class is
not part of this repository snapshot, the mem0 backing library) become
explicit outcome parameters, so that every code path of the embedded
functions is the image of a concrete path of the source.
-/

namespace HappyPartner

/-- Result dictionary `{is_safe, reasons}` produced by `SafetyAgent.validate_content`
/ `filter_content` (the `SafetyAgent` class itself is external to this snapshot;
its verdict is an input everywhere below). -/
structure SafetyResult where
  is_safe : Bool
  reasons : List String
deriving DecidableEq, Repr

/-- Python `dict.get(key)` on a string-keyed table, embedded as an association list. -/
def lookupA {α : Type} (tbl : List (String × α)) (k : String) : Option α :=
  match tbl with
  | [] => none
  | (k', v) :: rest => if k' = k then some v else lookupA rest k

/-- In-place mutation `tbl[k] = v` of an existing entry of a string-keyed `dict`. -/
def setA {α : Type} (tbl : List (String × α)) (k : String) (v : α) : List (String × α) :=
  match tbl with
  | [] => []
  | (k', v') :: rest => if k' = k then (k', v) :: rest else (k', v') :: setA rest k v

/-- Python `del tbl[k]` on a string-keyed `dict`. -/
def delA {α : Type} (tbl : List (String × α)) (k : String) : List (String × α) :=
  match tbl with
  | [] => []
  | (k', v') :: rest => if k' = k then rest else (k', v') :: delA rest k

/-- Byte-wise substring test `needle in hay` on character lists
(Python's `in` operator on `str`). -/
def isPrefixB : List Char → List Char → Bool
  | [], _ => true
  | _ :: _, [] => false
  | a :: as, b :: bs => a = b && isPrefixB as bs

/-- `needle in hay` for Python strings, over the underlying character lists. -/
def containsSub (needle : List Char) : List Char → Bool
  | [] => isPrefixB needle []
  | c :: rest => isPrefixB needle (c :: rest) || containsSub needle rest

/-- `needle in hay` lifted to `String`. -/
def strContains (hay needle : String) : Bool :=
  containsSub needle.data hay.data

/-! ## `agents/role_factory.py` -/

namespace RoleFactoryM

/-- `AgentState` enum of `role_factory.py`. -/
inductive AgentState where
  | created
  | initializing
  | active
  | paused
  | terminated
deriving DecidableEq, Repr

/-- `RoleConfig` dataclass of `role_factory.py`. -/
structure RoleConfig where
  name : String
  personality : String
  background : String
  age_group : String
  prompt_template : String
  world_id : String
  voice_id : Option String := none
  special_abilities : List String := []
  safety_rules : List String := []
deriving DecidableEq, Repr

/-- One turn of a `DynamicRoleAgent`'s `conversation_history`. -/
structure HistoryEntry where
  user_message : String
  agent_response : String
  user_id : String
  timestamp : ℚ
deriving DecidableEq, Repr

/-- `AgentInstance` dataclass: the factory's registry record for one agent
(the per-instance `asyncio.Lock` has no value-level content and is omitted). -/
structure AgentInstance where
  agent_id : String
  role_config : RoleConfig
  state : AgentState
  created_at : ℚ
  last_activity : ℚ
  conversation_history : List HistoryEntry := []
  memory_context : List (String × String) := []
deriving DecidableEq, Repr

/-- The `RoleFactory` registry: `active_roles` and `role_configs` dicts
(both keyed by role id). -/
structure FactoryState where
  active_roles : List (String × AgentInstance)
  role_configs : List (String × RoleConfig)
deriving DecidableEq, Repr

/-- `DynamicRoleAgent.__init__`: the value-level fields of a freshly constructed
agent (`role_id` is minted from a uuid, passed in here as `freshId`;
`datetime.now()` is passed in as `now`). -/
structure DynamicRoleAgent where
  config : RoleConfig
  role_id : String
  state : AgentState
  created_at : ℚ
  last_activity : ℚ
  conversation_history : List HistoryEntry
  memory_context : List (String × String)
deriving DecidableEq, Repr

/-- `DynamicRoleAgent(config)`: fresh construction per `__init__`. -/
def mkDynamicRoleAgent (config : RoleConfig) (freshId : String) (now : ℚ) : DynamicRoleAgent :=
  { config := config
    role_id := freshId
    state := AgentState.created
    created_at := now
    last_activity := now
    conversation_history := []
    memory_context := [] }

/-- `RoleFactory.get_role`: looks the id up in `active_roles`; if found and not
terminated, returns a **newly constructed** `DynamicRoleAgent` built from the
stored config (not the live registered state); otherwise `None`. -/
def getRole (st : FactoryState) (role_id : String) (freshId : String) (now : ℚ) :
    Option DynamicRoleAgent :=
  match lookupA st.active_roles role_id with
  | some inst =>
      if inst.state ≠ AgentState.terminated then
        some (mkDynamicRoleAgent inst.role_config freshId now)
      else none
  | none => none

/-- `RoleFactory.pause_role`. -/
def pauseRole (st : FactoryState) (role_id : String) : Bool × FactoryState :=
  match lookupA st.active_roles role_id with
  | some inst =>
      let inst' := { inst with state := AgentState.paused }
      (true, { st with active_roles := setA st.active_roles role_id inst' })
  | none => (false, st)

/-- `RoleFactory.resume_role`. -/
def resumeRole (st : FactoryState) (role_id : String) : Bool × FactoryState :=
  match lookupA st.active_roles role_id with
  | some inst =>
      let inst' := { inst with state := AgentState.active }
      (true, { st with active_roles := setA st.active_roles role_id inst' })
  | none => (false, st)

/-- `RoleFactory.terminate_role`: marks the instance terminated, clears its
history and memory context, and deletes it from both registry dicts. -/
def terminateRole (st : FactoryState) (role_id : String) : Bool × FactoryState :=
  match lookupA st.active_roles role_id with
  | some _ =>
      (true,
        { active_roles := delA st.active_roles role_id
          role_configs := delA st.role_configs role_id })
  | none => (false, st)

/-- `RoleFactory.cleanup_inactive_roles`: collects the ids whose
`(now - last_activity)` exceeds `max_inactive_minutes * 60` seconds, then runs
`self.terminate_role(role_id)` for each — but the source omits `await` on that
async call, so the coroutine object is created and discarded without ever
executing its body: the registry is not modified.  Only the counter runs. -/
def cleanupInactiveRoles (st : FactoryState) (max_inactive_minutes : ℚ) (now : ℚ) :
    Nat × FactoryState :=
  let roles_to_remove :=
    (st.active_roles.filter
      (fun p => now - p.2.last_activity > max_inactive_minutes * 60)).map Prod.fst
  (roles_to_remove.length, st)

end RoleFactoryM

/-! ## `agents/chapter_manager.py` -/

namespace ChapterMgrM

open RoleFactoryM

/-- `ChapterState` enum. -/
inductive ChapterState where
  | planning
  | active
  | paused
  | completed
  | archived
deriving DecidableEq, Repr

/-- `ChapterType` enum. -/
inductive ChapterType where
  | introduction
  | adventure
  | challenge
  | resolution
  | conclusion
deriving DecidableEq, Repr

/-- `ChapterObjective` dataclass. -/
structure ChapterObjective where
  description : String
  success_criteria : List String
  educational_goals : List String
  difficulty_level : Nat
deriving DecidableEq, Repr

/-- `ChapterProgress` dataclass. -/
structure ChapterProgress where
  current_step : Nat
  total_steps : Nat
  completed_objectives : List String
  active_roles : List String
  user_engagement_score : ℚ
  time_spent_minutes : ℚ
deriving DecidableEq, Repr

/-- `Chapter` dataclass (`metadata` kept as a string-keyed association list). -/
structure Chapter where
  chapter_id : String
  story_id : String
  title : String
  chapter_type : ChapterType
  state : ChapterState
  objectives : List ChapterObjective
  progress : ChapterProgress
  content_summary : String
  created_at : ℚ
  started_at : Option ℚ := none
  completed_at : Option ℚ := none
deriving DecidableEq, Repr

/-- The `RoleEmotion` value carried by a role response (`role_agent.py`). -/
inductive RoleEmotion where
  | happy
  | excited
  | curious
  | worried
  | confused
  | brave
  | kind
  | neutral
deriving DecidableEq, Repr

/-- The slice of a `RoleAgent.interact` response dict that
`_calculate_engagement_score` inspects: `response.get("emotion")`
(`none` when the key is absent or falsy). -/
structure RoleResponse where
  emotion : Option RoleEmotion
deriving DecidableEq, Repr

/-- `response.get("emotion") and response["emotion"] != RoleEmotion.NEUTRAL`,
counted over a response list. -/
def countEmotional (rs : List RoleResponse) : Nat :=
  (rs.filter (fun r =>
    match r.emotion with
    | some e => e ≠ RoleEmotion.neutral
    | none => false)).length

/-- `ChapterManager._calculate_engagement_score`.  Base 0.5; +0.1 for a user
action longer than 20 characters; if any role responded, +0.2 plus +0.1 per
response carrying a non-neutral emotion; plus `current_step/total_steps * 0.1`;
clamped by `min(1.0, ·)`.  When `total_steps = 0` the Python division raises
`ZeroDivisionError`, the surrounding `except` catches it and the method
returns 0.5. -/
def calculateEngagementScore (chapter : Chapter) (user_action : String)
    (role_responses : List RoleResponse) : ℚ :=
  if chapter.progress.total_steps = 0 then 1/2
  else
    let base : ℚ := 1/2
    let base := if user_action.length > 20 then base + 1/10 else base
    let base :=
      if role_responses.isEmpty then base
      else base + 1/5 + (countEmotional role_responses : ℚ) * (1/10)
    let progress_ratio : ℚ :=
      (chapter.progress.current_step : ℚ) / (chapter.progress.total_steps : ℚ)
    min 1 (base + progress_ratio * (1/10))

/-- Outcomes of the external calls made inside `advance_chapter`:
the safety agent's verdict on the user action, the successful role responses
collected from `agent.interact`, the LLM content summary (`none` = the
`chat_completion` call raised, so the `"故事继续发展..."` default is used),
and the current wall-clock time. -/
structure AdvanceEnv where
  safety : SafetyResult
  role_responses : List RoleResponse
  summary : Option String
  now : ℚ
deriving DecidableEq, Repr

/-- The envelope returned by `advance_chapter` (fields not inspected by any
claim are kept but simplified to the values placed in them). -/
structure AdvanceResult where
  success : Bool
  error : Option String := none
  safety_check : Option SafetyResult := none
  role_responses : List RoleResponse := []
  content_summary : Option String := none
  engagement_score : Option ℚ := none
  is_completed : Option Bool := none
deriving DecidableEq, Repr

/-- `ChapterManager.advance_chapter`.  Requires an `active` chapter; aborts with
`{"success": False, "error": "内容不安全", "safety_check": ...}` before touching
the chapter when the safety check rejects the action; otherwise bumps
`current_step` (capped at `total_steps`), recomputes elapsed minutes, derives
the summary, runs the completion check against the *previous* engagement
score, then recomputes and stores the engagement score. -/
def advanceChapter (chs : List (String × Chapter)) (cid : String)
    (user_action : String) (env : AdvanceEnv) :
    AdvanceResult × List (String × Chapter) :=
  match lookupA chs cid with
  | none => ({ success := false, error := some "章节不存在或未激活" }, chs)
  | some c =>
    if c.state ≠ ChapterState.active then
      ({ success := false, error := some "章节不存在或未激活" }, chs)
    else if env.safety.is_safe = false then
      ({ success := false, error := some "内容不安全",
         safety_check := some env.safety }, chs)
    else
      let p := c.progress
      let p :=
        if p.current_step < p.total_steps then
          { p with current_step := p.current_step + 1 }
        else p
      let p :=
        match c.started_at with
        | some t => { p with time_spent_minutes := (env.now - t) / 60 }
        | none => p
      let c := { c with progress := p }
      let summary := env.summary.getD "故事继续发展..."
      let completed : Bool :=
        decide (p.current_step ≥ p.total_steps) ||
          decide (p.user_engagement_score > 8/10)
      let c :=
        if completed then
          { c with state := ChapterState.completed, completed_at := some env.now }
        else c
      let score := calculateEngagementScore c user_action env.role_responses
      let c := { c with progress := { c.progress with user_engagement_score := score } }
      ({ success := true
         role_responses := env.role_responses
         content_summary := some summary
         engagement_score := some score
         is_completed := some completed }, setA chs cid c)

/-- `ChapterManager.start_chapter` acting on the `active_chapters` dict. -/
def startChapter (chs : List (String × Chapter)) (cid : String) (now : ℚ) :
    Bool × List (String × Chapter) :=
  match lookupA chs cid with
  | none => (false, chs)
  | some c =>
      if c.state = ChapterState.planning then
        (true, setA chs cid
          { c with state := ChapterState.active, started_at := some now })
      else (false, chs)

/-- `ChapterManager.pause_chapter`: `active → paused`, cascading
`role_factory.pause_role` over the chapter's active roles. -/
def pauseChapter (chs : List (String × Chapter)) (fac : FactoryState) (cid : String) :
    Bool × List (String × Chapter) × FactoryState :=
  match lookupA chs cid with
  | some c =>
      if c.state = ChapterState.active then
        let fac' := c.progress.active_roles.foldl
          (fun f rid => (pauseRole f rid).2) fac
        (true, setA chs cid { c with state := ChapterState.paused }, fac')
      else (false, chs, fac)
  | none => (false, chs, fac)

/-- `ChapterManager.resume_chapter`: `paused → active`, cascading
`role_factory.resume_role`. -/
def resumeChapter (chs : List (String × Chapter)) (fac : FactoryState) (cid : String) :
    Bool × List (String × Chapter) × FactoryState :=
  match lookupA chs cid with
  | some c =>
      if c.state = ChapterState.paused then
        let fac' := c.progress.active_roles.foldl
          (fun f rid => (resumeRole f rid).2) fac
        (true, setA chs cid { c with state := ChapterState.active }, fac')
      else (false, chs, fac)
  | none => (false, chs, fac)

/-- `ChapterManager.complete_chapter`: force-completes from `active` or `paused`,
terminating every active role. -/
def completeChapter (chs : List (String × Chapter)) (fac : FactoryState) (cid : String)
    (now : ℚ) : Bool × List (String × Chapter) × FactoryState :=
  match lookupA chs cid with
  | some c =>
      if c.state = ChapterState.active ∨ c.state = ChapterState.paused then
        let fac' := c.progress.active_roles.foldl
          (fun f rid => (terminateRole f rid).2) fac
        (true, setA chs cid
          { c with state := ChapterState.completed, completed_at := some now }, fac')
      else (false, chs, fac)
  | none => (false, chs, fac)

/-- `ChapterManager.archive_chapter`: `completed → archived`; the chapter is kept
in the in-memory table. -/
def archiveChapter (chs : List (String × Chapter)) (cid : String) :
    Bool × List (String × Chapter) :=
  match lookupA chs cid with
  | some c =>
      if c.state = ChapterState.completed then
        (true, setA chs cid { c with state := ChapterState.archived })
      else (false, chs)
  | none => (false, chs)

end ChapterMgrM

/-! ## `agents/intent_agent.py` -/

namespace IntentM

/-- `IntentType` enum. -/
inductive IntentType where
  | chat
  | story
deriving DecidableEq, Repr

/-- `self.wakeup_words`. -/
def wakeupWords : List String :=
  ["贝贝你好", "小贝贝", "讲故事", "贝贝", "开始游戏",
   "我们来玩游戏", "我想听故事", "开始讲故事", "你好贝贝"]

/-- `self.story_keywords` (the source list repeats "扮演"; the repeat is kept). -/
def storyKeywords : List String :=
  ["故事", "创建", "世界观", "角色", "扮演", "魔法", "冒险", "太空", "海洋",
   "森林", "恐龙", "公主", "城堡", "开始", "讲故事", "游戏", "扮演", "虚构",
   "想象", "童话"]

/-- `self.chat_keywords`. -/
def chatKeywords : List String :=
  ["你好", "嗨", "早上好", "晚上好", "再见", "谢谢", "今天", "明天", "昨天",
   "现在", "怎么样", "如何", "开心", "难过", "生气", "害怕", "喜欢", "爱",
   "朋友", "学校", "家庭", "学习", "帮助"]

/-- One maximal whitespace run becomes a single `' '`
(the regex substitution `re.sub(r"\s+", " ", ·)`). -/
def collapseWsAux : List Char → Bool → List Char
  | [], _ => []
  | c :: rest, inWs =>
    if c.isWhitespace then
      if inWs then collapseWsAux rest true
      else ' ' :: collapseWsAux rest true
    else c :: collapseWsAux rest false

/-- Python `str.strip()` restricted to whitespace. -/
def stripWs (l : List Char) : List Char :=
  ((l.dropWhile Char.isWhitespace).reverse.dropWhile Char.isWhitespace).reverse

/-- Python `str.lower()`, character-wise over the underlying character list
(`Char.toLower` lowers the ASCII range; the CJK keyword characters are fixed
points under both it and Python's `str.lower`). -/
def strToLower (s : String) : String :=
  ⟨s.data.map Char.toLower⟩

/-- `IntentAgent._preprocess_content`: strip, collapse inner whitespace runs to
one space, lower-case. -/
def preprocessContent (content : String) : String :=
  strToLower ⟨collapseWsAux (stripWs content.data) false⟩

/-- `IntentAgent._check_wakeup_words` on the preprocessed content
(`wakeup_word.lower() in content`). -/
def checkWakeupWords (content : String) : Bool :=
  wakeupWords.any (fun w => strContains content (strToLower w))

/-- The seven story "type" keywords of `_extract_entities`. -/
def storyTypes : List String :=
  ["魔法", "太空", "海洋", "森林", "恐龙", "公主", "动物"]

/-- `IntentAgent._extract_entities`. -/
def extractEntities (content : String) : List String :=
  (storyTypes.filter (fun t => strContains content t)).map
      (fun t => "story_type:" ++ t)
    ++ (if storyKeywords.any (fun w => strContains content w)
        then ["story_intention"] else [])
    ++ (if chatKeywords.any (fun w => strContains content w)
        then ["chat_intention"] else [])

/-- `IntentAgent._classify_by_keywords`: story wins only on a strictly greater
hit count; chat wins when it has any hits otherwise; default chat. -/
def classifyByKeywords (content : String) : IntentType :=
  let story_score := (storyKeywords.filter (fun k => strContains content k)).length
  let chat_score := (chatKeywords.filter (fun k => strContains content k)).length
  if story_score > chat_score then IntentType.story
  else if chat_score > 0 then IntentType.chat
  else IntentType.chat

/-- The dictionary `_ai_intent_analysis` returns. -/
structure AIAnalysis where
  primary_intent : String
  confidence : ℚ
  explanation : String
  context_clues : List String
deriving DecidableEq, Repr

/-- Outcome of the LLM interaction inside `_ai_intent_analysis`:
either the `chat_completion` call raised (`callError`), or its reply failed
`json.loads` / the `float(...)` conversion (`parseError`), or it parsed into
the four fields (with the `result.get` defaults already applied). -/
inductive AIOutcome where
  | callError (msg : String)
  | parseError
  | parsed (primary_intent : String) (confidence : ℚ)
      (explanation : String) (clues : List String)
deriving DecidableEq, Repr

/-- `IntentAgent._ai_intent_analysis`: the parse-failure default is
`("chat", 0.5)`; the call-failure default is `("chat", 0.3)`. -/
def aiIntentAnalysis : AIOutcome → AIAnalysis
  | AIOutcome.callError msg =>
      { primary_intent := "chat", confidence := 3/10,
        explanation := "AI分析出错: " ++ msg, context_clues := [] }
  | AIOutcome.parseError =>
      { primary_intent := "chat", confidence := 1/2,
        explanation := "AI分析失败，使用默认结果", context_clues := [] }
  | AIOutcome.parsed p c e cl =>
      { primary_intent := p, confidence := c, explanation := e,
        context_clues := cl }

/-- `IntentType(ai_primary)`: succeeds exactly on the two enum values,
otherwise raises `ValueError` (modelled as `none`). -/
def parseIntentType : String → Option IntentType
  | "chat" => some IntentType.chat
  | "story" => some IntentType.story
  | _ => none

/-- `IntentAgent._determine_final_intent`: the AI label wins outright when its
confidence is ≥ 0.8 and it parses; else a detected wake word forces `story`;
else the entity tags decide; else the keyword vote stands. -/
def determineFinalIntent (keyword_intent : IntentType) (ai : AIAnalysis)
    (entities : List String) (wakeup_detected : Bool) : IntentType :=
  match (if ai.confidence ≥ 8/10 then parseIntentType ai.primary_intent else none) with
  | some t => t
  | none =>
    if wakeup_detected then IntentType.story
    else if entities.contains "story_type:魔法" ∨ entities.contains "story_type:太空" then
      IntentType.story
    else if entities.contains "story_intention" then IntentType.story
    else if entities.contains "chat_intention" then IntentType.chat
    else keyword_intent

/-- `IntentAgent._calculate_confidence`: start at 0.5, +0.2 on keyword
agreement, average with the AI confidence, + `min(0.1·|entities|, 0.3)`,
clamp into `[0.1, 1.0]`. -/
def calculateConfidence (final_intent keyword_intent : IntentType)
    (ai : AIAnalysis) (entities : List String) : ℚ :=
  let base : ℚ := 1/2
  let base := if final_intent = keyword_intent then base + 1/5 else base
  let base := (base + ai.confidence) / 2
  let entity_bonus := min ((entities.length : ℚ) * (1/10)) (3/10)
  let base := base + entity_bonus
  min (max base (1/10)) 1

/-- The slice of `IntentResult` the claims inspect. -/
structure IntentResult where
  intent : IntentType
  confidence : ℚ
  wakeup_detected : Bool
  entities : List String
deriving DecidableEq, Repr

/-- `IntentAgent.detect_intent` (steps 1–5, 7, 8; the emotion-analysis step 6
feeds only the `emotion_type` field, which no claim inspects).  The method's
outer `except` path returns the fixed `(chat, 0.5)` default, which also
satisfies the confidence bounds proved below. -/
def detectIntent (content : String) (aiOutcome : AIOutcome) : IntentResult :=
  let content_clean := preprocessContent content
  let wakeup_detected := checkWakeupWords content_clean
  let entities := extractEntities content_clean
  let keyword_intent := classifyByKeywords content_clean
  let ai_analysis := aiIntentAnalysis aiOutcome
  let final_intent := determineFinalIntent keyword_intent ai_analysis entities wakeup_detected
  { intent := final_intent
    confidence := calculateConfidence final_intent keyword_intent ai_analysis entities
    wakeup_detected := wakeup_detected
    entities := entities }

end IntentM

/-! ## `agents/world_agent.py` -/

namespace WorldM

/-- `SafetyLevel` enum: `safe` = "安全", `warning` = "需要警告",
`danger` = "不安全" (the source's `UNSAFE` member). -/
inductive SafetyLevel where
  | safe
  | warning
  | danger
deriving DecidableEq, Repr

/-- The dangerous-keyword list of `_safety_check_content`. -/
def dangerousKeywords : List String :=
  ["暴力", "武器", "战斗", "恐怖", "血腥", "死亡"]

/-- The warning strings produced by the keyword scan. -/
def keywordWarnings (content : String) : List String :=
  (dangerousKeywords.filter (fun k => strContains content k)).map
    (fun k => "检测到可能不适宜的内容: " ++ k)

/-- The dict `_safety_check_content` returns. -/
structure WorldSafetyResult where
  level : SafetyLevel
  reasons : List String
  original_check : Option SafetyResult
deriving DecidableEq, Repr

/-- Outcome of `self.safety_agent.validate_content(content)`:
a verdict, or an exception (caught by the method's `except`). -/
inductive AgentCheckOutcome where
  | ok (r : SafetyResult)
  | exn (msg : String)
deriving DecidableEq, Repr

/-- `WorldAgent._safety_check_content`: safe iff the agent accepts and no
dangerous keyword matched; any keyword match yields `warning`; an agent
rejection with no keyword match yields `danger` ("不安全"); an internal
exception yields `warning`. -/
def safetyCheckContent (outcome : AgentCheckOutcome) (content : String) :
    WorldSafetyResult :=
  match outcome with
  | AgentCheckOutcome.exn msg =>
      { level := SafetyLevel.warning, reasons := ["安全检查失败: " ++ msg],
        original_check := none }
  | AgentCheckOutcome.ok r =>
      let warnings := keywordWarnings content
      let level :=
        if r.is_safe && warnings.isEmpty then SafetyLevel.safe
        else if !warnings.isEmpty then SafetyLevel.warning
        else SafetyLevel.danger
      { level := level, reasons := warnings, original_check := some r }

/-- The `StoryWorld` fields the claims inspect (creation timestamp and
free-form metadata omitted). -/
structure StoryWorld where
  world_id : String
  world_name : String
  world_type : String
  background : String
  rules : String
  features : List String
  roles : List String
  themes : List String
  target_age : String
  safety_level : SafetyLevel
  created_by : String
deriving DecidableEq, Repr

/-- Keys of `self.educational_themes` (the `theme in self.educational_themes`
membership test checks dict keys). -/
def educationalThemeKeys : List String :=
  ["友谊", "勇气", "善良", "探索", "责任", "诚实"]

/-- The friendly name markers of `_make_child_friendly_name` (the source tests
`prefix in name`, i.e. substring containment, not a starts-with test). -/
def friendlyMarkers : List String := ["小", "勇敢的", "聪明的", "可爱的"]

/-- `WorldAgent._make_child_friendly_name`. -/
def makeChildFriendlyName (name : String) : String :=
  if friendlyMarkers.any (fun p => strContains name p) then name
  else "小" ++ name

/-- `WorldAgent._optimize_and_validate`. -/
def optimizeAndValidate (w : StoryWorld) (sc : WorldSafetyResult) : StoryWorld :=
  let w :=
    if sc.level = SafetyLevel.warning then { w with safety_level := SafetyLevel.warning }
    else { w with safety_level := SafetyLevel.safe }
  let w :=
    if w.themes.any (fun t => educationalThemeKeys.contains t) then w
    else { w with themes := w.themes ++ ["友谊", "勇气"] }
  { w with roles := w.roles.map makeChildFriendlyName }

/-- The `WorldBuilderResult` envelope (`generation_time`, a wall-clock
measurement, is not modelled). -/
structure WorldBuilderResult where
  success : Bool
  world : Option StoryWorld
  safety_check : WorldSafetyResult
  warnings : List String
  error : Option String
deriving DecidableEq, Repr

/-- External inputs of one `create_world` call: the safety agent's outcome on
the description, and the world produced by steps 2–4 (template matching and
template/AI generation, which only run when the safety gate passes). -/
structure CreateWorldEnv where
  agentOutcome : AgentCheckOutcome
  generated : StoryWorld
deriving DecidableEq, Repr

/-- `WorldAgent.create_world`: the safety gate runs first and an "不安全"
verdict returns the failure envelope before any generation; otherwise the
generated world is optimized/validated and given a fresh id.  (The returned
`warnings` reads `safety_result.get("warnings", [])`, and that dict has no
`"warnings"` key, so it is always `[]` on success.) -/
def createWorld (env : CreateWorldEnv) (user_description user_id : String)
    (freshId : String) : WorldBuilderResult :=
  let sc := safetyCheckContent env.agentOutcome user_description
  if sc.level = SafetyLevel.danger then
    { success := false, world := none, safety_check := sc, warnings := [],
      error := some "内容不安全，无法创建世界观" }
  else
    let w := optimizeAndValidate env.generated sc
    let w := { w with world_id := freshId }
    { success := true, world := some w, safety_check := sc, warnings := [],
      error := none }

end WorldM

/-! ## `agents/multi_agent.py` (safety-checker node) -/

namespace OrchM

/-- `InteractionMode` enum. -/
inductive InteractionMode where
  | chat
  | story
deriving DecidableEq, Repr

/-- The `GraphState` fields the safety-checker node reads or writes, plus the
surrounding per-turn fields it must leave untouched. -/
structure GraphState where
  messages : List String
  user_id : String
  session_id : String
  current_mode : InteractionMode
  safety_check : Option SafetyResult
  emotion_analysis : Option String
  response_ready : Bool
  next_agent : String
deriving DecidableEq, Repr

/-- Outcome of `self.safety_agent.filter_content(user_message)` inside the
node's `try`: a verdict, or an exception (this also covers the
`state["messages"][-1]` access raising). -/
inductive FilterOutcome where
  | ok (r : SafetyResult)
  | exn (msg : String)
deriving DecidableEq, Repr

/-- `MultiAgent.safety_checker_node`: on success, records the verdict and
routes to `emotion_analyzer` iff it is safe (else `response_formatter`);
on an internal exception, records `{is_safe: True, reasons: []}` and routes
to `emotion_analyzer` (fail-open). -/
def safetyCheckerNode (st : GraphState) (outcome : FilterOutcome) : GraphState :=
  match outcome with
  | FilterOutcome.ok r =>
      { st with
        safety_check := some r
        next_agent :=
          if r.is_safe then "emotion_analyzer" else "response_formatter" }
  | FilterOutcome.exn _ =>
      { st with
        safety_check := some { is_safe := true, reasons := [] }
        next_agent := "emotion_analyzer" }

end OrchM

/-! ## `core/memory/mem0.py` -/

namespace MemM

/-- `MemoryType` enum. -/
inductive MemoryType where
  | world_setting
  | role_info
  | story_progress
  | user_preference
  | interaction_history
  | learning_outcome
deriving DecidableEq, Repr

/-- The `MemorySearchResult` fields the claims inspect. -/
structure MemorySearchResult where
  memory_id : String
  content : String
  memory_type : MemoryType
  relevance_score : ℚ
deriving DecidableEq, Repr

/-- A `memory_cache` value: search entries cache converted result lists,
`store_*` entries mirror the rendered content string. -/
inductive CacheData where
  | results (rs : List MemorySearchResult)
  | stored (content : String)
deriving DecidableEq, Repr

/-- One `{"data": ..., "timestamp": ...}` cache record. -/
structure CacheEntry where
  data : CacheData
  timestamp : ℚ
deriving DecidableEq, Repr

/-- `StoryMemoryManager` state: whether `memory_client` is non-`None`
(`false` = the backing library is unavailable / all fallbacks failed), the
local dictionary cache, and the integer performance counters.  The
`avg_search_time` statistic is wall-clock arithmetic and is not modelled. -/
structure MemState where
  clientAvailable : Bool
  cache : List (String × CacheEntry)
  total_searches : Nat
  cache_hits : Nat
deriving DecidableEq, Repr

/-- `StoryMemoryManager._update_cache`. -/
def updateCache (cache : List (String × CacheEntry)) (key : String)
    (d : CacheData) (now : ℚ) : List (String × CacheEntry) :=
  match lookupA cache key with
  | some _ => setA cache key { data := d, timestamp := now }
  | none => (key, { data := d, timestamp := now }) :: cache

/-- `StoryMemoryManager._get_from_cache`: a hit requires the entry to be
younger than the TTL. -/
def getFromCache (cache : List (String × CacheEntry)) (key : String)
    (now ttl : ℚ) : Option CacheData :=
  match lookupA cache key with
  | some e => if now - e.timestamp < ttl then some e.data else none
  | none => none

/-- Outcome of one `memory_client.add` call: the backing id (`none` = no
`"id"` key in the result, so the per-type fallback id is used), or an
exception (caught and turned into an `error_<ts>` id). -/
inductive StoreOutcome where
  | ok (returnedId : Option String)
  | exn (msg : String)
deriving DecidableEq, Repr

/-- `StoryMemoryManager.store_world_memory`.  The rendered natural-language
summary of `world_data` is passed in as `content` (string formatting of the
payload dict).  With `memory_client` unavailable the call short-circuits to
the tagged placeholder id `mem0_disabled_<epoch-seconds>` without touching
the cache. -/
def storeWorldMemory (st : MemState) (content : String)
    (user_id story_id : String) (now : ℚ) (outcome : StoreOutcome) :
    String × MemState :=
  if st.clientAvailable = false then
    ("mem0_disabled_" ++ toString now.floor, st)
  else
    match outcome with
    | StoreOutcome.exn _ => ("error_" ++ toString now.floor, st)
    | StoreOutcome.ok rid =>
      let memory_id := rid.getD ("world_" ++ story_id ++ "_" ++ toString now.floor)
      (memory_id,
        { st with cache := updateCache st.cache memory_id (CacheData.stored content) now })

/-- `StoryMemoryManager.store_role_memory` (same degraded-mode shape). -/
def storeRoleMemory (st : MemState) (content : String)
    (user_id story_id : String) (role_name : String) (now : ℚ)
    (outcome : StoreOutcome) : String × MemState :=
  if st.clientAvailable = false then
    ("mem0_disabled_" ++ toString now.floor, st)
  else
    match outcome with
    | StoreOutcome.exn _ => ("error_" ++ toString now.floor, st)
    | StoreOutcome.ok rid =>
      let memory_id := rid.getD ("char_" ++ role_name ++ "_" ++ toString now.floor)
      (memory_id,
        { st with cache := updateCache st.cache memory_id (CacheData.stored content) now })

/-- `StoryMemoryManager.store_story_progress`. -/
def storeStoryProgress (st : MemState) (content : String)
    (user_id story_id chapter_id : String) (now : ℚ) (outcome : StoreOutcome) :
    String × MemState :=
  if st.clientAvailable = false then
    ("mem0_disabled_" ++ toString now.floor, st)
  else
    match outcome with
    | StoreOutcome.exn _ => ("error_" ++ toString now.floor, st)
    | StoreOutcome.ok rid =>
      let memory_id := rid.getD ("progress_" ++ chapter_id ++ "_" ++ toString now.floor)
      (memory_id,
        { st with cache := updateCache st.cache memory_id (CacheData.stored content) now })

/-- `StoryMemoryManager.store_interaction_history` (this store does not mirror
into the cache even when the client is available). -/
def storeInteractionHistory (st : MemState) (content : String)
    (user_id story_id chapter_id : String) (now : ℚ) (outcome : StoreOutcome) :
    String × MemState :=
  if st.clientAvailable = false then
    ("mem0_disabled_" ++ toString now.floor, st)
  else
    match outcome with
    | StoreOutcome.exn _ => ("error_" ++ toString now.floor, st)
    | StoreOutcome.ok rid =>
      (rid.getD ("interaction_" ++ chapter_id ++ "_" ++ toString now.floor), st)

/-- The cache key `f"{user_id}_{query}_{story_id or 'all'}"`. -/
def searchKey (user_id query : String) (story_id : Option String) : String :=
  user_id ++ "_" ++ query ++ "_" ++ story_id.getD "all"

/-- Outcome of one `memory_client.search` call, with the raw hits already
converted by `_convert_to_memory_result`. -/
inductive SearchOutcome where
  | ok (hits : List MemorySearchResult)
  | exn (msg : String)
deriving DecidableEq, Repr

/-- `StoryMemoryManager.search_relevant_memories`.  `total_searches` is bumped
on entry; a *truthy* cache hit (Python `if cached_result:` — an empty cached
list counts as a miss) returns the cached list and bumps `cache_hits`; with
`memory_client` unavailable the call returns `[]` without caching; otherwise
the backing search runs and its converted hits are cached.  (A `stored`-kind
cache value under a search key would require a store-id/search-key string
collision; that type-confused path of the dynamic source is mapped to the
cached-miss continuation here and no theorem rests on it.) -/
def searchRelevantMemories (st : MemState) (query user_id : String)
    (story_id : Option String) (memory_types : List MemoryType) (limit : Nat)
    (now ttl : ℚ) (outcome : SearchOutcome) :
    List MemorySearchResult × MemState :=
  let st := { st with total_searches := st.total_searches + 1 }
  let key := searchKey user_id query story_id
  let cached :=
    match getFromCache st.cache key now ttl with
    | some (CacheData.results rs) => if rs.isEmpty then none else some rs
    | some (CacheData.stored _) => none
    | none => none
  match cached with
  | some rs => (rs, { st with cache_hits := st.cache_hits + 1 })
  | none =>
    if st.clientAvailable = false then ([], st)
    else
      match outcome with
      | SearchOutcome.exn _ => ([], st)
      | SearchOutcome.ok hits =>
        (hits, { st with cache := updateCache st.cache key (CacheData.results hits) now })

end MemM

/-! ## Concrete fixtures used by witnesses and counterexamples -/

namespace ChapterMgrM

/-- A small chapter progress record: one objective, none completed yet. -/
def exProgress : ChapterProgress :=
  { current_step := 0, total_steps := 1, completed_objectives := [],
    active_roles := [], user_engagement_score := 0, time_spent_minutes := 0 }

/-- A chapter in the given state over `exProgress`. -/
def exChapter (st : ChapterState) : Chapter :=
  { chapter_id := "chapter_s1_ab12cd34", story_id := "s1", title := "初识",
    chapter_type := ChapterType.introduction, state := st, objectives := [],
    progress := exProgress, content_summary := "", created_at := 0,
    started_at := some 0 }

/-- A one-chapter `active_chapters` table. -/
def exTable (st : ChapterState) : List (String × Chapter) :=
  [("chapter_s1_ab12cd34", exChapter st)]

/-- Three role responses, all carrying a non-neutral emotion. -/
def exResponses : List RoleResponse :=
  [{ emotion := some RoleEmotion.happy },
   { emotion := some RoleEmotion.excited },
   { emotion := some RoleEmotion.curious }]

/-- A 20-character user action. -/
def act20 : String := "aaaaaaaaaaaaaaaaaaaa"

/-- A 21-character user action, `act20` plus one more character. -/
def act21 : String := "aaaaaaaaaaaaaaaaaaaaa"

end ChapterMgrM

namespace RoleFactoryM

/-- The "小魔法师" default-role configuration of `create_default_roles`. -/
def exRoleConfig : RoleConfig :=
  { name := "小魔法师", personality := "勇敢而好奇，喜欢帮助别人",
    background := "魔法学校的年轻学生，正在学习各种神奇的魔法",
    age_group := "7-12", prompt_template := "魔法学生模板", world_id := "w1",
    special_abilities := ["简单魔法", "动物沟通"],
    safety_rules := ["不使用攻击性魔法", "帮助他人"] }

/-- A registered agent with some accumulated conversation history. -/
def exInstance : AgentInstance :=
  { agent_id := "role_小魔法师_ab12cd34", role_config := exRoleConfig,
    state := AgentState.active, created_at := 0, last_activity := 0,
    conversation_history :=
      [{ user_message := "你好", agent_response := "你好呀！", user_id := "u1",
         timestamp := 1 }],
    memory_context := [] }

/-- A one-agent factory registry. -/
def exFactory : FactoryState :=
  { active_roles := [("role_小魔法师_ab12cd34", exInstance)],
    role_configs := [("role_小魔法师_ab12cd34", exRoleConfig)] }

end RoleFactoryM

/-! ## Chapter-manager theorems (claims C1, C2, C7) -/

namespace ChapterMgrM

theorem startChapter_spec (chs : List (String × Chapter)) (cid : String) (now : ℚ) :
    ((startChapter chs cid now).1 = true ↔
      ∃ c, lookupA chs cid = some c ∧ c.state = ChapterState.planning) ∧
    ((startChapter chs cid now).1 = false → (startChapter chs cid now).2 = chs) := by
  unfold startChapter
  cases h : lookupA chs cid with
  | none => simp
  | some c =>
    by_cases hs : c.state = ChapterState.planning
    · simp [hs]
    · simp [hs]

theorem pauseChapter_spec (chs : List (String × Chapter)) (fac : RoleFactoryM.FactoryState)
    (cid : String) :
    ((pauseChapter chs fac cid).1 = true ↔
      ∃ c, lookupA chs cid = some c ∧ c.state = ChapterState.active) ∧
    ((pauseChapter chs fac cid).1 = false → (pauseChapter chs fac cid).2 = (chs, fac)) := by
  unfold pauseChapter
  cases h : lookupA chs cid with
  | none => simp
  | some c =>
    by_cases hs : c.state = ChapterState.active
    · simp [hs]
    · simp [hs]

theorem resumeChapter_spec (chs : List (String × Chapter)) (fac : RoleFactoryM.FactoryState)
    (cid : String) :
    ((resumeChapter chs fac cid).1 = true ↔
      ∃ c, lookupA chs cid = some c ∧ c.state = ChapterState.paused) ∧
    ((resumeChapter chs fac cid).1 = false → (resumeChapter chs fac cid).2 = (chs, fac)) := by
  unfold resumeChapter
  cases h : lookupA chs cid with
  | none => simp
  | some c =>
    by_cases hs : c.state = ChapterState.paused
    · simp [hs]
    · simp [hs]

theorem completeChapter_spec (chs : List (String × Chapter)) (fac : RoleFactoryM.FactoryState)
    (cid : String) (now : ℚ) :
    ((completeChapter chs fac cid now).1 = true ↔
      ∃ c, lookupA chs cid = some c ∧
        (c.state = ChapterState.active ∨ c.state = ChapterState.paused)) ∧
    ((completeChapter chs fac cid now).1 = false →
      (completeChapter chs fac cid now).2 = (chs, fac)) := by
  unfold completeChapter
  cases h : lookupA chs cid with
  | none => simp
  | some c =>
    by_cases hs : c.state = ChapterState.active ∨ c.state = ChapterState.paused
    · simp [hs]
    · simp [hs]

theorem archiveChapter_spec (chs : List (String × Chapter)) (cid : String) :
    ((archiveChapter chs cid).1 = true ↔
      ∃ c, lookupA chs cid = some c ∧ c.state = ChapterState.completed) ∧
    ((archiveChapter chs cid).1 = false → (archiveChapter chs cid).2 = chs) := by
  unfold archiveChapter
  cases h : lookupA chs cid with
  | none => simp
  | some c =>
    by_cases hs : c.state = ChapterState.completed
    · simp [hs]
    · simp [hs]

/-- **C1** — Chapter state machine: `start_chapter` succeeds exactly from
`planning`, `pause_chapter` exactly from `active`, `resume_chapter` exactly
from `paused`, `complete_chapter` exactly from `active` or `paused`,
`archive_chapter` exactly from `completed`; every other call (including on an
unknown chapter id) returns `false` and leaves the chapter table (and, for the
cascading operations, the role-factory registry) unchanged.  The embedded
operations are total functions, which reflects that none of these source
methods has a raise path. -/
theorem chapter_state_machine (chs : List (String × Chapter))
    (fac : RoleFactoryM.FactoryState) (cid : String) (now : ℚ) :
    (((startChapter chs cid now).1 = true ↔
        ∃ c, lookupA chs cid = some c ∧ c.state = ChapterState.planning) ∧
      ((startChapter chs cid now).1 = false → (startChapter chs cid now).2 = chs)) ∧
    (((pauseChapter chs fac cid).1 = true ↔
        ∃ c, lookupA chs cid = some c ∧ c.state = ChapterState.active) ∧
      ((pauseChapter chs fac cid).1 = false → (pauseChapter chs fac cid).2 = (chs, fac))) ∧
    (((resumeChapter chs fac cid).1 = true ↔
        ∃ c, lookupA chs cid = some c ∧ c.state = ChapterState.paused) ∧
      ((resumeChapter chs fac cid).1 = false → (resumeChapter chs fac cid).2 = (chs, fac))) ∧
    (((completeChapter chs fac cid now).1 = true ↔
        ∃ c, lookupA chs cid = some c ∧
          (c.state = ChapterState.active ∨ c.state = ChapterState.paused)) ∧
      ((completeChapter chs fac cid now).1 = false →
        (completeChapter chs fac cid now).2 = (chs, fac))) ∧
    (((archiveChapter chs cid).1 = true ↔
        ∃ c, lookupA chs cid = some c ∧ c.state = ChapterState.completed) ∧
      ((archiveChapter chs cid).1 = false → (archiveChapter chs cid).2 = chs)) :=
  ⟨startChapter_spec chs cid now, pauseChapter_spec chs fac cid,
   resumeChapter_spec chs fac cid, completeChapter_spec chs fac cid now,
   archiveChapter_spec chs cid⟩

/-- Witness for C1: on a concrete one-chapter table in `paused` state,
`resume_chapter` succeeds and `start_chapter`/`archive_chapter` fail leaving
the table unchanged. -/
theorem chapter_state_machine_witness :
    (resumeChapter (exTable ChapterState.paused) RoleFactoryM.exFactory
        "chapter_s1_ab12cd34").1 = true ∧
    (startChapter (exTable ChapterState.paused) "chapter_s1_ab12cd34" 5).2 =
      exTable ChapterState.paused ∧
    (archiveChapter (exTable ChapterState.paused) "chapter_s1_ab12cd34").1 = false := by
  have h := chapter_state_machine (exTable ChapterState.paused)
    RoleFactoryM.exFactory "chapter_s1_ab12cd34" 5
  refine ⟨h.2.2.1.1.mpr ⟨exChapter ChapterState.paused, by decide, by decide⟩, ?_, ?_⟩
  · exact h.1.2 (by decide)
  · by_contra hb
    have := h.2.2.2.2.1.mp (by revert hb; decide)
    revert this
    decide

/-- **C2** — Safety short-circuit with state atomicity: on an `active` chapter,
an unsafe verdict on the user action makes `advance_chapter` return
`{success: false, error: "内容不安全", safety_check: ...}` and leave the
chapter table (hence `chapter.progress.current_step` and the rest of the
chapter's progress) unchanged. -/
theorem advance_chapter_unsafe_short_circuit (chs : List (String × Chapter))
    (cid : String) (user_action : String) (env : AdvanceEnv) (c : Chapter)
    (hc : lookupA chs cid = some c) (hs : c.state = ChapterState.active)
    (hbad : env.safety.is_safe = false) :
    advanceChapter chs cid user_action env =
      ({ success := false, error := some "内容不安全",
         safety_check := some env.safety }, chs) := by
  unfold advanceChapter
  rw [hc]
  simp [hs, hbad]

/-- Witness for C2 at a concrete active chapter and unsafe verdict. -/
theorem advance_chapter_unsafe_short_circuit_witness :
    advanceChapter (exTable ChapterState.active) "chapter_s1_ab12cd34" "我要打架"
        { safety := { is_safe := false, reasons := ["检测到禁止内容"] },
          role_responses := [], summary := none, now := 60 } =
      ({ success := false, error := some "内容不安全",
         safety_check := some { is_safe := false, reasons := ["检测到禁止内容"] } },
       exTable ChapterState.active) :=
  advance_chapter_unsafe_short_circuit (exTable ChapterState.active)
    "chapter_s1_ab12cd34" "我要打架"
    { safety := { is_safe := false, reasons := ["检测到禁止内容"] },
      role_responses := [], summary := none, now := 60 }
    (exChapter ChapterState.active) (by decide) (by decide) (by decide)

/-- Proof helper: the engagement summands that do not depend on the user
action's length (base 0.5, role-response bonuses, progress bonus). -/
def engagementUnclamped (chapter : Chapter) (rs : List RoleResponse) : ℚ :=
  1/2 + (if rs.isEmpty then 0 else 1/5 + (countEmotional rs : ℚ) * (1/10))
    + ((chapter.progress.current_step : ℚ) / (chapter.progress.total_steps : ℚ)) * (1/10)

theorem engagement_eq (chapter : Chapter) (ua : String) (rs : List RoleResponse)
    (h : chapter.progress.total_steps ≠ 0) :
    calculateEngagementScore chapter ua rs =
      min 1 ((if ua.length > 20 then (1 : ℚ)/10 else 0) + engagementUnclamped chapter rs) := by
  simp only [calculateEngagementScore, engagementUnclamped, h, if_false]
  split_ifs <;> ring_nf

theorem engagement_bounds (chapter : Chapter) (ua : String) (rs : List RoleResponse) :
    0 ≤ calculateEngagementScore chapter ua rs ∧
      calculateEngagementScore chapter ua rs ≤ 1 := by
  simp only [calculateEngagementScore]
  split_ifs
  all_goals refine ⟨?_, ?_⟩
  all_goals first
    | exact min_le_left _ _
    | positivity
    | norm_num

/-- **C7 (amended)** — Engagement score: the score always lies in `[0.0, 1.0]`
(it is 0.5 on the `ZeroDivisionError` fallback when `total_steps = 0`); and,
holding the chapter and role responses fixed with `total_steps ≠ 0`, an action
longer than 20 characters scores at least as high as one of at most 20
characters, strictly higher whenever the shorter action's score is below the
1.0 clamp. -/
theorem engagement_score_spec (chapter : Chapter) (rs : List RoleResponse)
    (a b : String) :
    (∀ ua, 0 ≤ calculateEngagementScore chapter ua rs ∧
      calculateEngagementScore chapter ua rs ≤ 1) ∧
    (a.length > 20 → b.length ≤ 20 → chapter.progress.total_steps ≠ 0 →
      calculateEngagementScore chapter b rs ≤ calculateEngagementScore chapter a rs ∧
      (calculateEngagementScore chapter b rs < 1 →
        calculateEngagementScore chapter b rs < calculateEngagementScore chapter a rs)) := by
  refine ⟨fun ua => engagement_bounds chapter ua rs, fun ha hb hts => ?_⟩
  rw [engagement_eq chapter a rs hts, engagement_eq chapter b rs hts]
  rw [if_pos ha, if_neg (by omega)]
  set u := engagementUnclamped chapter rs with hu
  rw [zero_add]
  constructor
  · exact min_le_min le_rfl (by linarith)
  · intro hlt
    have hu1 : u < 1 := by
      by_contra hge
      push_neg at hge
      rw [min_eq_left hge] at hlt
      exact absurd hlt (lt_irrefl 1)
    rw [min_eq_right hu1.le]
    exact lt_min (by linarith) (by linarith)

/-- A chapter whose progress has `total_steps = 0` (the division-by-zero
fallback path of `_calculate_engagement_score`). -/
def exChapterTS0 : Chapter :=
  { exChapter ChapterState.active with progress := { exProgress with total_steps := 0 } }

/-- Counterexample to **C7 as stated**: with three emotionally engaged role
responses the un-clamped score of a 20-character action already reaches 1.0,
so the 21-character action scores exactly the same (no strict increase); the
`total_steps = 0` fallback likewise returns 0.5 for both lengths. -/
theorem engagement_score_strict_counterexample :
    act21.length > 20 ∧ act20.length ≤ 20 ∧
    calculateEngagementScore (exChapter ChapterState.active) act21 exResponses =
      calculateEngagementScore (exChapter ChapterState.active) act20 exResponses ∧
    calculateEngagementScore exChapterTS0 act21 [] =
      calculateEngagementScore exChapterTS0 act20 [] := by
  refine ⟨by decide, by decide, ?_, ?_⟩
  · have hcount : countEmotional exResponses = 3 := by decide
    have hne : exResponses.isEmpty = false := by decide
    have hu : engagementUnclamped (exChapter ChapterState.active) exResponses = 1 := by
      norm_num [engagementUnclamped, hcount, hne, exChapter, exProgress]
    rw [engagement_eq _ _ _ (by decide), engagement_eq _ _ _ (by decide),
      if_pos (by decide), if_neg (by decide), hu, zero_add, min_self,
      min_eq_left (by norm_num : (1 : ℚ) ≤ 1/10 + 1)]
  · simp [calculateEngagementScore, exChapterTS0, exChapter, exProgress]

/-- Witness for C7 (amended) at a concrete chapter with one step and no role
responses: the 21-character action strictly outscores a 1-character one. -/
theorem engagement_score_spec_witness :
    calculateEngagementScore (exChapter ChapterState.active) "嗯" [] <
      calculateEngagementScore (exChapter ChapterState.active) act21 [] := by
  have h := (engagement_score_spec (exChapter ChapterState.active) [] act21 "嗯").2
    (by decide) (by decide) (by decide)
  have hu : engagementUnclamped (exChapter ChapterState.active) [] = 1/2 := by
    norm_num [engagementUnclamped, exChapter, exProgress]
  refine h.2 ?_
  rw [engagement_eq _ _ _ (by decide), if_neg (by decide), hu, zero_add,
    min_eq_right (by norm_num : (1 : ℚ)/2 ≤ 1)]
  norm_num

end ChapterMgrM

/-! ## Orchestrator theorem (claim C4) -/

namespace OrchM

/-- **C4** — Fail-open safety check: whenever `filter_content` raises inside
`safety_checker_node`, the node records `{is_safe: True, reasons: []}`, routes
to `emotion_analyzer`, and touches nothing else in the state — exactly the
state it would produce had the check returned a passing verdict. -/
theorem safety_checker_fail_open (st : GraphState) (msg : String) :
    safetyCheckerNode st (FilterOutcome.exn msg) =
      { st with safety_check := some { is_safe := true, reasons := [] },
                next_agent := "emotion_analyzer" } ∧
    safetyCheckerNode st (FilterOutcome.exn msg) =
      safetyCheckerNode st (FilterOutcome.ok { is_safe := true, reasons := [] }) :=
  ⟨rfl, rfl⟩

/-- Witness for C4 at a concrete orchestrator state and exception message. -/
theorem safety_checker_fail_open_witness :
    safetyCheckerNode
        { messages := ["我们来玩游戏"], user_id := "1", session_id := "session_1_ab12cd34",
          current_mode := InteractionMode.chat, safety_check := none,
          emotion_analysis := none, response_ready := false,
          next_agent := "safety_checker" }
        (FilterOutcome.exn "connection timeout") =
      { messages := ["我们来玩游戏"], user_id := "1", session_id := "session_1_ab12cd34",
        current_mode := InteractionMode.chat,
        safety_check := some { is_safe := true, reasons := [] },
        emotion_analysis := none, response_ready := false,
        next_agent := "emotion_analyzer" } :=
  (safety_checker_fail_open
    { messages := ["我们来玩游戏"], user_id := "1", session_id := "session_1_ab12cd34",
      current_mode := InteractionMode.chat, safety_check := none,
      emotion_analysis := none, response_ready := false,
      next_agent := "safety_checker" } "connection timeout").1

end OrchM

/-! ## Intent-agent theorems (claims C3, C8) -/

namespace IntentM

/-- Counterexample to **C8 as stated**: when the LLM call itself raises,
`_ai_intent_analysis` defaults to confidence 0.3, not 0.5 (the 0.5 default
applies only to the JSON-parse failure). -/
theorem ai_intent_default_counterexample :
    (aiIntentAnalysis (AIOutcome.callError "connection refused")).primary_intent = "chat" ∧
    (aiIntentAnalysis (AIOutcome.callError "connection refused")).confidence = 3/10 ∧
    ¬ (aiIntentAnalysis (AIOutcome.callError "connection refused")).confidence = 1/2 := by
  refine ⟨rfl, rfl, ?_⟩
  norm_num [aiIntentAnalysis]

/-- **C8 (amended)** — AI intent-analysis defaults: an unparseable reply yields
the hard default `("chat", 0.5)`; a failed `chat_completion` call yields
`("chat", 0.3)`; in both failure modes the primary intent is `"chat"`. -/
theorem ai_intent_default_spec (msg : String) :
    (aiIntentAnalysis AIOutcome.parseError).primary_intent = "chat" ∧
    (aiIntentAnalysis AIOutcome.parseError).confidence = 1/2 ∧
    (aiIntentAnalysis (AIOutcome.callError msg)).primary_intent = "chat" ∧
    (aiIntentAnalysis (AIOutcome.callError msg)).confidence = 3/10 :=
  ⟨rfl, rfl, rfl, rfl⟩

end IntentM

/-! ## Role-factory theorems (claims C9, C10) -/

namespace RoleFactoryM

/-- **C9** — Non-persistent `get_role`: for a registered, non-terminated id the
factory returns a freshly constructed `DynamicRoleAgent` built from the stored
config, whose conversation history is empty whatever history the registered
instance has accumulated; for a terminated instance or an unknown id it
returns `None`. -/
theorem get_role_fresh (st : FactoryState) (rid freshId : String) (now : ℚ) :
    (∀ inst, lookupA st.active_roles rid = some inst →
      inst.state ≠ AgentState.terminated →
      getRole st rid freshId now = some (mkDynamicRoleAgent inst.role_config freshId now) ∧
      (mkDynamicRoleAgent inst.role_config freshId now).conversation_history = [] ∧
      (mkDynamicRoleAgent inst.role_config freshId now).config = inst.role_config) ∧
    (∀ inst, lookupA st.active_roles rid = some inst →
      inst.state = AgentState.terminated → getRole st rid freshId now = none) ∧
    (lookupA st.active_roles rid = none → getRole st rid freshId now = none) := by
  refine ⟨fun inst hl hs => ?_, fun inst hl hs => ?_, fun hl => ?_⟩
  · unfold getRole
    rw [hl]
    simp [hs]
    exact ⟨rfl, rfl⟩
  · unfold getRole
    rw [hl]
    simp [hs]
  · unfold getRole
    rw [hl]

/-- Witness for C9: the example registry holds an agent with one accumulated
history turn, yet `get_role` hands back a fresh agent with empty history. -/
theorem get_role_fresh_witness :
    exInstance.conversation_history ≠ [] ∧
    getRole exFactory "role_小魔法师_ab12cd34" "role_小魔法师_99ff00aa" 7 =
      some (mkDynamicRoleAgent exRoleConfig "role_小魔法师_99ff00aa" 7) ∧
    (mkDynamicRoleAgent exRoleConfig "role_小魔法师_99ff00aa" 7).conversation_history = [] := by
  have h := (get_role_fresh exFactory "role_小魔法师_ab12cd34"
    "role_小魔法师_99ff00aa" 7).1 exInstance (by decide) (by decide)
  exact ⟨by decide, h.1, h.2.1⟩

/-- **C10** — truth of the code at the claim's failing input: one registered
agent is 31 minutes inactive against a 30-minute threshold; `cleanup_inactive_roles`
counts it (returns 1) but, because the source calls the async `terminate_role`
without `await`, the agent is neither terminated nor removed — the registry is
returned unchanged with the agent still `active` in both tables. -/
theorem cleanup_inactive_roles_no_termination :
    cleanupInactiveRoles exFactory 30 1860 = (1, exFactory) ∧
    (1860 : ℚ) - exInstance.last_activity > 30 * 60 ∧
    lookupA (cleanupInactiveRoles exFactory 30 1860).2.active_roles
      "role_小魔法师_ab12cd34" = some exInstance ∧
    lookupA (cleanupInactiveRoles exFactory 30 1860).2.role_configs
      "role_小魔法师_ab12cd34" = some exRoleConfig ∧
    exInstance.state = AgentState.active := by
  have hgt : (1860 : ℚ) - exInstance.last_activity > 30 * 60 := by
    norm_num [exInstance]
  have hclean : cleanupInactiveRoles exFactory 30 1860 = (1, exFactory) := by
    unfold cleanupInactiveRoles exFactory
    norm_num [exInstance]
  refine ⟨hclean, hgt, ?_, ?_, by decide⟩
  · rw [hclean]; decide
  · rw [hclean]; decide

end RoleFactoryM

/-! ## World-agent theorem (claim C5) -/

namespace WorldM

theorem keywordWarnings_ne_nil {content k : String} (hk : k ∈ dangerousKeywords)
    (hc : strContains content k = true) : keywordWarnings content ≠ [] := by
  unfold keywordWarnings
  simp only [ne_eq, List.map_eq_nil_iff, List.filter_eq_nil_iff]
  intro h
  exact absurd hc (by simpa using h k hk)

/-- **C5** — World-creation safety gating: (a) the combined level is "不安全"
only when the safety agent itself returned a rejecting verdict; (b) any
dangerous keyword in the description forces the level to `warning` (so never
`safe`); (c) a `safe` level requires both an accepting agent verdict and an
empty keyword scan — the scan never independently marks content safe; and
(d) whenever the check yields "不安全", `create_world` returns the failure
envelope with no world generated. -/
theorem world_safety_gating (out : AgentCheckOutcome) (content : String)
    (env : CreateWorldEnv) (desc uid fid : String) :
    ((safetyCheckContent out content).level = SafetyLevel.danger →
      ∃ r, out = AgentCheckOutcome.ok r ∧ r.is_safe = false) ∧
    (∀ k ∈ dangerousKeywords, strContains content k = true →
      (safetyCheckContent out content).level = SafetyLevel.warning) ∧
    ((safetyCheckContent out content).level = SafetyLevel.safe →
      (∃ r, out = AgentCheckOutcome.ok r ∧ r.is_safe = true) ∧
        keywordWarnings content = []) ∧
    ((safetyCheckContent env.agentOutcome desc).level = SafetyLevel.danger →
      createWorld env desc uid fid =
        { success := false, world := none,
          safety_check := safetyCheckContent env.agentOutcome desc, warnings := [],
          error := some "内容不安全，无法创建世界观" }) := by
  refine ⟨?_, ?_, ?_, ?_⟩
  · intro hd
    cases out with
    | exn msg => simp [safetyCheckContent] at hd
    | ok r =>
      refine ⟨r, rfl, ?_⟩
      by_cases hE : (keywordWarnings content).isEmpty
      · by_cases hS : r.is_safe
        · simp [safetyCheckContent, hE, hS] at hd
        · simpa using hS
      · simp [safetyCheckContent, hE] at hd
  · intro k hk hc
    have hne := keywordWarnings_ne_nil hk hc
    have hE : (keywordWarnings content).isEmpty = false := by
      simpa [List.isEmpty_iff] using hne
    cases out with
    | exn msg => simp [safetyCheckContent]
    | ok r => simp [safetyCheckContent, hE]
  · intro hs
    cases out with
    | exn msg => simp [safetyCheckContent] at hs
    | ok r =>
      by_cases hE : (keywordWarnings content).isEmpty
      · by_cases hS : r.is_safe
        · exact ⟨⟨r, rfl, hS⟩, List.isEmpty_iff.mp hE⟩
        · simp [safetyCheckContent, hE, hS] at hs
      · simp [safetyCheckContent, hE] at hs
  · intro hd
    unfold createWorld
    rw [if_pos hd]

/-- Witness for C5: a description containing "暴力" with an accepting agent
verdict is downgraded to `warning`; a rejecting verdict on a clean description
is "不安全" and aborts `create_world` before generation. -/
theorem world_safety_gating_witness :
    (safetyCheckContent (AgentCheckOutcome.ok { is_safe := true, reasons := [] })
        "一个充满暴力的世界").level = SafetyLevel.warning ∧
    (createWorld
        { agentOutcome := AgentCheckOutcome.ok { is_safe := false, reasons := ["违禁内容"] },
          generated :=
            { world_id := "", world_name := "奇妙世界", world_type := "自定义",
              background := "", rules := "", features := [], roles := [],
              themes := [], target_age := "3-12岁", safety_level := SafetyLevel.safe,
              created_by := "u1" } }
        "一个普通的世界" "u1" "world_u1_ab12cd34").world = none := by
  constructor
  · exact (world_safety_gating
      (AgentCheckOutcome.ok { is_safe := true, reasons := [] }) "一个充满暴力的世界"
      { agentOutcome := AgentCheckOutcome.ok { is_safe := true, reasons := [] },
        generated :=
          { world_id := "", world_name := "", world_type := "", background := "",
            rules := "", features := [], roles := [], themes := [],
            target_age := "", safety_level := SafetyLevel.safe, created_by := "" } }
      "" "" "").2.1 "暴力" (by decide) (by decide)
  · have h := (world_safety_gating
      (AgentCheckOutcome.ok { is_safe := false, reasons := ["违禁内容"] }) "一个普通的世界"
      { agentOutcome := AgentCheckOutcome.ok { is_safe := false, reasons := ["违禁内容"] },
        generated :=
          { world_id := "", world_name := "奇妙世界", world_type := "自定义",
            background := "", rules := "", features := [], roles := [],
            themes := [], target_age := "3-12岁", safety_level := SafetyLevel.safe,
            created_by := "u1" } }
      "一个普通的世界" "u1" "world_u1_ab12cd34").2.2.2 (by decide)
    rw [h]

end WorldM

/-! ## Memory-manager theorem (claim C6) -/

namespace MemM

/-- **C6** — Graceful memory-store degradation: when `memory_client` is
unavailable every `store_*` call returns the tagged placeholder id
`mem0_disabled_<epoch>` without touching the manager's state, and every
`search_relevant_memories` call (over the empty cache that degraded mode
maintains) returns `[]`, for every query/user/story/type/limit argument,
leaving the manager degraded with an empty cache. -/
theorem memory_degraded_spec (st : MemState) (h : st.clientAvailable = false)
    (hc : st.cache = []) :
    (∀ content uid sid now out,
      (storeWorldMemory st content uid sid now out).1 =
        "mem0_disabled_" ++ toString now.floor ∧
      (storeWorldMemory st content uid sid now out).2 = st) ∧
    (∀ content uid sid rname now out,
      (storeRoleMemory st content uid sid rname now out).1 =
        "mem0_disabled_" ++ toString now.floor ∧
      (storeRoleMemory st content uid sid rname now out).2 = st) ∧
    (∀ content uid sid cid now out,
      (storeStoryProgress st content uid sid cid now out).1 =
        "mem0_disabled_" ++ toString now.floor ∧
      (storeStoryProgress st content uid sid cid now out).2 = st) ∧
    (∀ content uid sid cid now out,
      (storeInteractionHistory st content uid sid cid now out).1 =
        "mem0_disabled_" ++ toString now.floor ∧
      (storeInteractionHistory st content uid sid cid now out).2 = st) ∧
    (∀ q uid sid types limit now ttl out,
      (searchRelevantMemories st q uid sid types limit now ttl out).1 = [] ∧
      (searchRelevantMemories st q uid sid types limit now ttl out).2.clientAvailable
        = false ∧
      (searchRelevantMemories st q uid sid types limit now ttl out).2.cache = []) := by
  refine ⟨?_, ?_, ?_, ?_, ?_⟩
  · intro content uid sid now out
    simp [storeWorldMemory, h]
  · intro content uid sid rname now out
    simp [storeRoleMemory, h]
  · intro content uid sid cid now out
    simp [storeStoryProgress, h]
  · intro content uid sid cid now out
    simp [storeInteractionHistory, h]
  · intro q uid sid types limit now ttl out
    simp [searchRelevantMemories, getFromCache, hc, h, lookupA]

/-- A memory manager in fully degraded mode (backing library unavailable). -/
def exMemOff : MemState :=
  { clientAvailable := false, cache := [], total_searches := 0, cache_hits := 0 }

/-- Witness for C6 at concrete arguments in degraded mode. -/
theorem memory_degraded_spec_witness :
    (storeWorldMemory exMemOff "故事世界观设定" "u1" "s1" 1700000000
        (StoreOutcome.ok none)).1 =
      "mem0_disabled_" ++ toString (1700000000 : ℚ).floor ∧
    (searchRelevantMemories exMemOff "魔法森林" "u1" (some "s1")
        [MemoryType.world_setting] 5 1700000000 300 (SearchOutcome.ok [])).1 = [] := by
  have h := memory_degraded_spec exMemOff rfl rfl
  exact ⟨(h.1 "故事世界观设定" "u1" "s1" 1700000000 (StoreOutcome.ok none)).1,
    (h.2.2.2.2 "魔法森林" "u1" (some "s1") [MemoryType.world_setting] 5
      1700000000 300 (SearchOutcome.ok [])).1⟩

end MemM

/-! ## Wake-word preservation through preprocessing (claim C3) -/

theorem isPrefixB_iff (n h : List Char) : isPrefixB n h = true ↔ n <+: h := by
  induction n generalizing h with
  | nil => simp [isPrefixB]
  | cons a as ih =>
    cases h with
    | nil => simp [isPrefixB]
    | cons b bs => simp [isPrefixB, ih]

theorem containsSub_iff (n h : List Char) : containsSub n h = true ↔ n <:+: h := by
  induction h with
  | nil => simp [containsSub, isPrefixB_iff]
  | cons c t ih => simp [containsSub, isPrefixB_iff, ih, List.infix_cons_iff]

namespace IntentM

theorem infix_dropWhile_of_no (p : Char → Bool) (n : List Char) (hn : n ≠ [])
    (hall : ∀ c ∈ n, p c = false) :
    ∀ h : List Char, n <:+: h → n <:+: h.dropWhile p := by
  intro h
  induction h with
  | nil =>
    intro hinf
    exact absurd (List.infix_nil.mp hinf) hn
  | cons c t ih =>
    intro hinf
    rw [List.dropWhile_cons]
    split
    next hp =>
      rcases List.infix_cons_iff.mp hinf with hpre | hinf'
      · cases n with
        | nil => exact absurd rfl hn
        | cons a as =>
          obtain ⟨heq, -⟩ := List.cons_prefix_cons.mp hpre
          have hpa : p a = false := hall a (List.mem_cons_self _ _)
          rw [heq, hp] at hpa
          cases hpa
      · exact ih hinf'
    next hp => exact hinf

theorem infix_stripWs (n h : List Char) (hn : n ≠ [])
    (hall : ∀ c ∈ n, c.isWhitespace = false) (hinf : n <:+: h) :
    n <:+: stripWs h := by
  unfold stripWs
  have h1 : n <:+: h.dropWhile Char.isWhitespace :=
    infix_dropWhile_of_no Char.isWhitespace n hn hall h hinf
  have h2 : n.reverse <:+: (h.dropWhile Char.isWhitespace).reverse :=
    List.reverse_infix.mpr h1
  have h3 : n.reverse <:+:
      ((h.dropWhile Char.isWhitespace).reverse).dropWhile Char.isWhitespace := by
    refine infix_dropWhile_of_no Char.isWhitespace n.reverse ?_ ?_ _ h2
    · simpa using hn
    · intro c hc
      exact hall c (List.mem_reverse.mp hc)
  have h4 := List.reverse_infix.mpr h3
  simpa using h4

theorem prefix_collapse_of_no (n : List Char) (hall : ∀ c ∈ n, c.isWhitespace = false) :
    ∀ t : List Char, n <+: t → n <+: collapseWsAux t false := by
  induction n with
  | nil => intro t _; simp
  | cons a as ih =>
    intro t hp
    cases t with
    | nil => simp at hp
    | cons b t' =>
      rcases List.cons_prefix_cons.mp hp with ⟨rfl, hp'⟩
      have hb : a.isWhitespace = false := hall a (List.mem_cons_self _ _)
      simp only [collapseWsAux, hb, Bool.false_eq_true, if_false,
        List.cons_prefix_cons, true_and]
      exact ih (fun c hc => hall c (List.mem_cons_of_mem _ hc)) t' hp'

theorem infix_collapse_of_no (n : List Char) (hall : ∀ c ∈ n, c.isWhitespace = false) :
    ∀ (h : List Char) (b : Bool), n <:+: h → n <:+: collapseWsAux h b := by
  intro h
  induction h with
  | nil =>
    intro b hinf
    simpa [collapseWsAux] using hinf
  | cons c t ih =>
    intro b hinf
    rcases List.infix_cons_iff.mp hinf with hpre | hinf'
    · cases n with
      | nil => simp
      | cons a as =>
        obtain ⟨heq, hp'⟩ := List.cons_prefix_cons.mp hpre
        subst heq
        have hc : a.isWhitespace = false := hall a (List.mem_cons_self _ _)
        simp only [collapseWsAux, hc, Bool.false_eq_true, if_false]
        refine List.IsPrefix.isInfix ?_
        rw [List.cons_prefix_cons]
        exact ⟨rfl,
          prefix_collapse_of_no as (fun x hx => hall x (List.mem_cons_of_mem _ hx)) t hp'⟩
    · have h1 : n <:+: collapseWsAux t true := ih true hinf'
      have h2 : n <:+: collapseWsAux t false := ih false hinf'
      by_cases hc : c.isWhitespace
      · cases b with
        | true => simpa [collapseWsAux, hc] using h1
        | false =>
          simp only [collapseWsAux, hc, if_true]
          exact List.infix_cons h1
      · simp only [collapseWsAux, Bool.not_eq_true] at hc
        simp only [collapseWsAux, hc, Bool.false_eq_true, if_false]
        exact List.infix_cons h2

/-- Every wake phrase is nonempty, whitespace-free, and a fixed point of
lower-casing (character-wise and as a string). -/
theorem wakeupWords_wf :
    wakeupWords.all (fun w =>
      (!w.data.isEmpty) &&
      w.data.all (fun c => !c.isWhitespace && (c.toLower = c)) &&
      (strToLower w = w)) = true := by decide

/-- If the raw message contains a wake phrase, the phrase survives
`_preprocess_content` (strip / whitespace-collapse / lower-casing) and the
wake-word check on the cleaned content fires. -/
theorem wakeup_preserved (content w : String) (hw : w ∈ wakeupWords)
    (hc : strContains content w = true) :
    checkWakeupWords (preprocessContent content) = true := by
  have hwf := List.all_eq_true.mp wakeupWords_wf w hw
  simp only [Bool.and_eq_true, List.all_eq_true, decide_eq_true_eq,
    Bool.not_eq_true'] at hwf
  obtain ⟨⟨hne, hchars⟩, hlow⟩ := hwf
  have hne' : w.data ≠ [] := by
    intro hnil
    rw [hnil] at hne
    simp at hne
  have hws : ∀ c ∈ w.data, c.isWhitespace = false := fun c hcmem => (hchars c hcmem).1
  have hfix : ∀ c ∈ w.data, c.toLower = c := fun c hcmem => (hchars c hcmem).2
  have hinf : w.data <:+: content.data := (containsSub_iff _ _).mp hc
  have hstrip : w.data <:+: stripWs content.data :=
    infix_stripWs w.data content.data hne' hws hinf
  have hcoll : w.data <:+: collapseWsAux (stripWs content.data) false :=
    infix_collapse_of_no w.data hws _ false hstrip
  have hmap : w.data.map Char.toLower <:+:
      (collapseWsAux (stripWs content.data) false).map Char.toLower :=
    List.IsInfix.map Char.toLower hcoll
  have hself : w.data.map Char.toLower = w.data := by
    have hcongr : w.data.map Char.toLower = w.data.map id :=
      List.map_congr_left fun a ha => hfix a ha
    simpa using hcongr
  rw [hself] at hmap
  unfold checkWakeupWords
  refine List.any_eq_true.mpr ⟨w, hw, ?_⟩
  rw [hlow]
  unfold strContains
  exact (containsSub_iff _ _).mpr hmap

theorem calculateConfidence_bounds (f k : IntentType) (ai : AIAnalysis)
    (es : List String) :
    1/10 ≤ calculateConfidence f k ai es ∧ calculateConfidence f k ai es ≤ 1 := by
  simp only [calculateConfidence]
  exact ⟨le_min (le_max_right _ _) (by norm_num), min_le_right _ _⟩

theorem detectIntent_confidence_eq (content : String) (out : AIOutcome) :
    (detectIntent content out).confidence =
      calculateConfidence (detectIntent content out).intent
        (classifyByKeywords (preprocessContent content)) (aiIntentAnalysis out)
        (extractEntities (preprocessContent content)) := rfl

theorem detectIntent_intent_eq (content : String) (out : AIOutcome) :
    (detectIntent content out).intent =
      determineFinalIntent (classifyByKeywords (preprocessContent content))
        (aiIntentAnalysis out) (extractEntities (preprocessContent content))
        (checkWakeupWords (preprocessContent content)) := rfl

/-- Counterexample to **C3 as stated**: the message "贝贝你好，我们来玩游戏"
contains a wake phrase and the wake check fires, yet when the LLM classifier
reports `("chat", 0.9)` the AI-confidence branch of
`_determine_final_intent` takes precedence and the final intent is `chat`,
not `story` — wake-word dominance does not hold "regardless of other
signals". -/
theorem wakeup_dominance_counterexample :
    "贝贝你好" ∈ wakeupWords ∧
    strContains "贝贝你好，我们来玩游戏" "贝贝你好" = true ∧
    (detectIntent "贝贝你好，我们来玩游戏"
        (AIOutcome.parsed "chat" (9/10) "日常问候" [])).wakeup_detected = true ∧
    (detectIntent "贝贝你好，我们来玩游戏"
        (AIOutcome.parsed "chat" (9/10) "日常问候" [])).intent = IntentType.chat := by
  refine ⟨by decide, by decide, by decide, ?_⟩
  rw [detectIntent_intent_eq]
  unfold determineFinalIntent aiIntentAnalysis
  rw [if_pos (by norm_num : ((9 : ℚ)/10) ≥ 8/10)]
  rfl

/-- **C3 (amended)** — Intent confidence bounds and wake-word dominance: for
every input and AI outcome the returned confidence lies in `[0.1, 1.0]`; and
every message containing a fixed wake phrase is classified `story` regardless
of the story/chat keyword tallies and entity tags, *provided* the LLM
classifier does not override it (its confidence is below 0.8 or its label is
not a valid intent). -/
theorem detect_intent_spec (content : String) (out : AIOutcome) :
    (1/10 ≤ (detectIntent content out).confidence ∧
      (detectIntent content out).confidence ≤ 1) ∧
    (∀ w ∈ wakeupWords, strContains content w = true →
      ((aiIntentAnalysis out).confidence < 8/10 ∨
        parseIntentType (aiIntentAnalysis out).primary_intent = none) →
      (detectIntent content out).intent = IntentType.story) := by
  constructor
  · rw [detectIntent_confidence_eq]
    exact calculateConfidence_bounds _ _ _ _
  · intro w hw hc hcond
    have hwake := wakeup_preserved content w hw hc
    rw [detectIntent_intent_eq]
    unfold determineFinalIntent
    have hnone :
        (if (aiIntentAnalysis out).confidence ≥ 8/10 then
          parseIntentType (aiIntentAnalysis out).primary_intent else none) = none := by
      rcases hcond with hlt | hpn
      · rw [if_neg (not_le.mpr hlt)]
      · split
        · exact hpn
        · rfl
    rw [hnone]
    simp [hwake]

/-- Witness for C3 (amended): with an unparseable LLM reply (default
confidence 0.5 < 0.8), the wake-phrase message is classified `story`, and its
confidence is within bounds. -/
theorem detect_intent_spec_witness :
    (detectIntent "贝贝你好，我们来玩游戏" AIOutcome.parseError).intent =
      IntentType.story ∧
    1/10 ≤ (detectIntent "贝贝你好，我们来玩游戏" AIOutcome.parseError).confidence ∧
    (detectIntent "贝贝你好，我们来玩游戏" AIOutcome.parseError).confidence ≤ 1 := by
  have h := detect_intent_spec "贝贝你好，我们来玩游戏" AIOutcome.parseError
  refine ⟨h.2 "贝贝你好" (by decide) (by decide) (Or.inl (by norm_num [aiIntentAnalysis])),
    h.1.1, h.1.2⟩

end IntentM

end HappyPartner
